import Mathlib

/-!
Shallow embedding of the Reminder Scheduling & Response Service
(`NotificationService` in the repository's notification module).

Modelling conventions:
* Machine-level side effects are recorded as a trace of `Event`s, one event
  per *issued* boundary call (platform trigger registration / cancellation,
  and key-value persistence writes).  Reads are not traced.
* `Platform` carries one failure flag per kind of awaited boundary call;
  a `true` flag means every call of that kind rejects (throws) after it has
  been issued.  `handles` is the supply of opaque ids that
  `scheduleNotificationAsync` returns, indexed by call order inside one
  service invocation.
* JavaScript `null`/`undefined` both embed as `Option.none`; JavaScript
  truthiness tests on strings are modelled explicitly (`"" `is falsy).
* Each service method `fooE` returns `Except String (trace × result)`;
  a `catch` block that swallows the error and continues is an `.ok` branch,
  a `catch` block that re-throws is an `.error` branch.
-/

/-- Mirror of the `MedicationReminder` interface of the source. -/
structure MedicationReminder where
  id : String
  medicationId : String
  medicationName : String
  dosage : String
  scheduledTime : String
  days : List Nat
  enabled : Bool
  notificationId : Option String
  deriving DecidableEq

/-- Mirror of the persisted Medication records read and mutated by
`handleMedicationTaken` (`id`, `name`, `dosage`, `adherence`, `lastTaken`). -/
structure Medication where
  id : String
  name : String
  dosage : String
  adherence : Int
  lastTaken : Option String
  deriving DecidableEq

/-- The `data` payload attached to a notification's content
(`medicationId`, `reminderTime`, `type`). -/
structure NotifData where
  medicationId : Option String
  reminderTime : Option String
  dataType : Option String
  deriving DecidableEq

/-- Notification content as passed to `scheduleNotificationAsync`. -/
structure Content where
  title : String
  body : String
  data : NotifData
  sound : Bool
  categoryIdentifier : Option String
  deriving DecidableEq

/-- Trigger descriptors: `WeeklyTriggerInput` and `TimeIntervalTriggerInput`. -/
inductive Trigger where
  | weekly (weekday hour minute : Nat) (repeats : Bool)
  | timeInterval (seconds : Nat) (repeats : Bool)
  deriving DecidableEq

/-- One issued boundary call.  `registerTrigger none c` is
`scheduleNotificationAsync` with `trigger: null` (deliver immediately). -/
inductive Event where
  | cancelTrigger (notificationId : String)
  | cancelAllTriggers
  | registerTrigger (trigger : Option Trigger) (content : Content)
  | writeMedications (value : List Medication)
  | writeReminders (value : List MedicationReminder)
  deriving DecidableEq

/-- Platform behaviour: one rejection flag per kind of awaited boundary call,
plus the supply of notification ids returned by registration. -/
structure Platform where
  getItemFails : Bool
  setItemFails : Bool
  scheduleNotifFails : Bool
  cancelNotifFails : Bool
  cancelAllFails : Bool
  permissionsFail : Bool
  handles : Nat → String

/-- Contents of the two persisted keys (`medications`,
`medication_reminders`); `none` is a key that was never written. -/
structure Store where
  medications : Option (List Medication)
  reminders : Option (List MedicationReminder)

/-- JavaScript `split(':')` over the character sequence of a string
(`"".split(':')` is `[""]`, a trailing separator yields a trailing empty
piece). -/
def splitOnColon : List Char → List (List Char)
  | [] => [[]]
  | a :: as =>
    match splitOnColon as with
    | [] => [[]]
    | g :: gs => if a = ':' then [] :: g :: gs else (a :: g) :: gs

/-- JavaScript `Number(...)` restricted to the decimal-digit strings the
scheduler feeds it: `some n` for a (possibly empty) digit string — JS gives
`Number('') = 0` — and `none` (NaN) as soon as a non-digit occurs.  The
non-digit behaviours of full JS `Number` (signs, decimals, exponents) are
outside every claim's well-formedness hypothesis and are collapsed to NaN. -/
def jsNumber? (cs : List Char) : Option Nat :=
  cs.foldl
    (fun acc c =>
      match acc, (if c.isDigit then some (c.toNat - 48) else none) with
      | some n, some d => some (n * 10 + d)
      | _, _ => none)
    (some 0)

/-- `reminder.scheduledTime.split(':').map(Number)` followed by
destructuring into `[hours, minutes]`.  (NaN and an absent piece are
collapsed to 0; all claims about parsing carry a well-formedness hypothesis
that keeps us on the two-piece numeric path.) -/
def parseTime (s : String) : Nat × Nat :=
  match (splitOnColon s.data).map (fun cs => (jsNumber? cs).getD 0) with
  | h :: m :: _ => (h, m)
  | [h] => (h, 0)
  | [] => (0, 0)

/-- The weekly trigger built for one entry `d` of `reminder.days`:
`weekday: d === 0 ? 1 : d + 1, hour, minute, repeats: true`. -/
def weeklyTrig (r : MedicationReminder) (d : Nat) : Trigger :=
  Trigger.weekly (if d = 0 then 1 else d + 1) (parseTime r.scheduledTime).1
    (parseTime r.scheduledTime).2 true

/-- The content scheduled for every weekday trigger of a reminder. -/
def reminderContent (r : MedicationReminder) : Content :=
  { title := "💊 Medicine Reminder"
    body := "Time to take " ++ r.medicationName ++ " (" ++ r.dosage ++ ")"
    data := { medicationId := some r.medicationId
              reminderTime := some r.scheduledTime
              dataType := some "medicine_reminder" }
    sound := true
    categoryIdentifier := some "medicine_reminder" }

/-- Content of an immediate notification sent through
`showLocalNotification(title, body, { type: dataType })`. -/
def immediateContent (title body dataType : String) : Content :=
  { title := title
    body := body
    data := { medicationId := none, reminderTime := none
              dataType := some dataType }
    sound := true
    categoryIdentifier := none }

/-- The cancellation performed at the top of `scheduleReminder`:
`if (reminder.notificationId) await this.cancelReminder(...)` — a JavaScript
truthiness test, so an absent *or empty* handle issues no cancel call
(`cancelReminder` itself swallows any platform rejection, so the call is
issued whenever the test passes). -/
def cancelEvents (r : MedicationReminder) : List Event :=
  match r.notificationId with
  | some h => if h = "" then [] else [Event.cancelTrigger h]
  | none => []

/-- `getReminders()`: read `medication_reminders`, parse, `[]` on a missing
key or on a storage failure (the catch returns `[]`). -/
def getRemindersRun (p : Platform) (st : Store) : List MedicationReminder :=
  if p.getItemFails then [] else st.reminders.getD []

/-- `getReminders()` seen through the exception layer: its catch swallows a
storage failure and returns `[]`, so it is `ok` on every platform. -/
def getRemindersE (p : Platform) (st : Store) :
    Except String (List MedicationReminder) :=
  if p.getItemFails then Except.ok []
  else Except.ok (st.reminders.getD [])

/-- The events of `saveReminder(r)`: read the existing collection, drop any
entry with `r.id`, append `r`, and issue the `setItem` write (issued even
when the platform then rejects it — the rejection is caught and logged
inside `saveReminder`). -/
def saveReminderEvents (p : Platform) (st : Store) (r : MedicationReminder) :
    List Event :=
  let existing := getRemindersRun p st
  let updated := existing.filter (fun x => x.id != r.id) ++ [r]
  [Event.writeReminders updated]

/-- `scheduleReminder(reminder)`.  Early-returns `null` when disabled;
otherwise cancels a truthy stored handle, registers one weekly trigger per
entry of `days` (if the platform rejects, the first issued registration
throws and the surrounding catch returns `null`), keeps the first returned
id as the primary handle (`undefined`, i.e. `none`, when `days` is empty),
saves the reminder with that handle, and returns it. -/
def scheduleReminderE (p : Platform) (st : Store) (r : MedicationReminder) :
    Except String (List Event × Option String) :=
  if r.enabled = false then Except.ok ([], none)
  else
    let cTrace := cancelEvents r
    if p.scheduleNotifFails = true ∧ r.days ≠ [] then
      match r.days with
      | [] => Except.ok (cTrace, none)
      | d :: _ =>
        Except.ok
          (cTrace ++ [Event.registerTrigger (some (weeklyTrig r d)) (reminderContent r)],
           none)
    else
      let regTrace :=
        r.days.map (fun d => Event.registerTrigger (some (weeklyTrig r d)) (reminderContent r))
      let ids := (List.range r.days.length).map p.handles
      let primary := ids.head?
      let saved := { r with notificationId := primary }
      Except.ok (cTrace ++ regTrace ++ saveReminderEvents p st saved, primary)

/-- `cancelReminder(notificationId)`: issues the cancel call and swallows
any rejection. -/
def cancelReminderE (p : Platform) (notificationId : String) :
    Except String (List Event) :=
  Except.ok [Event.cancelTrigger notificationId]

/-- `cancelAllReminders()`: issues the cancel-all call and swallows any
rejection. -/
def cancelAllRemindersE (p : Platform) : Except String (List Event) :=
  Except.ok [Event.cancelAllTriggers]

/-- The cancellation step of `deleteReminder`: look the id up
(`reminders.find(r => r.id === reminderId)`), and cancel through the
truthiness guard `if (reminder?.notificationId)` — an absent entry, an
absent handle, or an empty-string handle issues no cancel call. -/
def deleteCancelEvents (l : List MedicationReminder) (reminderId : String) :
    List Event :=
  match l.find? (fun x => x.id == reminderId) with
  | some rem =>
    match rem.notificationId with
    | some h => if h = "" then [] else [Event.cancelTrigger h]
    | none => []
  | none => []

/-- `deleteReminder(reminderId)`: look the id up in the stored collection,
cancel a truthy handle, write back the collection with every entry of that
id removed (the `setItem` call is issued even on a platform rejection, which
the catch swallows). -/
def deleteReminderE (p : Platform) (st : Store) (reminderId : String) :
    Except String (List Event) :=
  let reminders := getRemindersRun p st
  let updated := reminders.filter (fun x => x.id != reminderId)
  Except.ok (deleteCancelEvents reminders reminderId
    ++ [Event.writeReminders updated])

/-- The per-record update of `handleMedicationTaken`: a matching record gets
`lastTaken = now` and `adherence = Math.min(100, adherence + 2)`; every
other record is returned as-is. -/
def updateMed (medicationId now : String) (med : Medication) : Medication :=
  if med.id = medicationId then
    { med with lastTaken := some now, adherence := min 100 (med.adherence + 2) }
  else med

/-- `medications.find(m => m.id === medicationId)?.name || 'Medication'`
(`||` also replaces an empty name). -/
def takenName (meds : List Medication) (medicationId : String) : String :=
  match meds.find? (fun m => m.id == medicationId) with
  | some m => if m.name = "" then "Medication" else m.name
  | none => "Medication"

/-- `handleMedicationTaken(medicationId, reminderTime)`: load `medications`
(return on a missing key; a storage rejection is caught, so a failing read
yields an empty trace), map `updateMed` over the collection, issue the
write-back, then send the confirmation notification.  The confirmation's
`showLocalNotification` call is inlined: its registration call is issued
before any platform rejection, and a rejection thrown back out of it is
swallowed by this handler's catch. -/
def handleMedicationTakenE (p : Platform) (st : Store) (medicationId now : String) :
    Except String (List Event) :=
  if p.getItemFails then Except.ok []
  else
    match st.medications with
    | none => Except.ok []
    | some meds =>
      let updated := meds.map (updateMed medicationId now)
      if p.setItemFails then Except.ok [Event.writeMedications updated]
      else
        Except.ok
          [Event.writeMedications updated,
           Event.registerTrigger none
             (immediateContent "✅ Dose Recorded"
               (takenName meds medicationId ++ " marked as taken") "confirmation")]

/-- The display name used by `handleSnoozeReminder`: the stored record's
`name (dosage)` when present, otherwise `"Your medication"`. -/
def snoozeName (storedMeds : Option (List Medication)) (medicationId : String) :
    String :=
  match storedMeds with
  | some meds =>
    match meds.find? (fun m => m.id == medicationId) with
    | some m => m.name ++ " (" ++ m.dosage ++ ")"
    | none => "Your medication"
  | none => "Your medication"

/-- Content of the snoozed one-shot reminder. -/
def snoozeContent (storedMeds : Option (List Medication))
    (medicationId reminderTime : String) : Content :=
  { title := "⏰ Snoozed Reminder"
    body := "Don\u0027t forget to take " ++ snoozeName storedMeds medicationId
    data := { medicationId := some medicationId
              reminderTime := some reminderTime
              dataType := some "snoozed_reminder" }
    sound := true
    categoryIdentifier := some "medicine_reminder" }

/-- `handleSnoozeReminder(medicationId, reminderTime)`: read `medications`
for the display name (a storage rejection is caught, yielding an empty
trace), register one one-shot trigger with `seconds: 15 * 60, repeats:
false` (if the platform rejects, the call was issued and the catch stops
there), then send the snooze confirmation. -/
def handleSnoozeReminderE (p : Platform) (st : Store)
    (medicationId reminderTime : String) : Except String (List Event) :=
  if p.getItemFails then Except.ok []
  else
    let c := snoozeContent st.medications medicationId reminderTime
    if p.scheduleNotifFails then
      Except.ok [Event.registerTrigger (some (Trigger.timeInterval (15 * 60) false)) c]
    else
      Except.ok
        [Event.registerTrigger (some (Trigger.timeInterval (15 * 60) false)) c,
         Event.registerTrigger none
           (immediateContent "⏰ Reminder Snoozed"
             "We\u0027ll remind you again in 15 minutes" "confirmation")]

/-- The notification-response listener body: pull `medicationId` and
`reminderTime` out of `notification.request.content.data || {}`, drop the
event when either is falsy (absent or empty), otherwise dispatch on
`actionIdentifier` (`'taken'` / `'snooze'`; anything else only logs).
Handler failures are caught inside the handlers themselves. -/
def routeResponseE (p : Platform) (st : Store) (actionIdentifier : String)
    (data : Option NotifData) (now : String) : Except String (List Event) :=
  let medicationId := match data with | some d => d.medicationId | none => none
  let reminderTime := match data with | some d => d.reminderTime | none => none
  match medicationId, reminderTime with
  | some m, some t =>
    if m = "" ∨ t = "" then Except.ok []
    else
      match actionIdentifier with
      | "taken" => handleMedicationTakenE p st m now
      | "snooze" => handleSnoozeReminderE p st m t
      | _ => Except.ok []
  | _, _ => Except.ok []

/-- `initialize()`: a no-op when the initialized flag is set; otherwise the
awaited permission calls may reject, and the catch logs and **re-throws**. -/
def initServiceE (p : Platform) (alreadyInit : Bool) : Except String Unit :=
  if alreadyInit then Except.ok ()
  else if p.permissionsFail then
    Except.error "Failed to initialize NotificationService"
  else Except.ok ()

/-- `showLocalNotification(title, body, data)`: one immediate registration;
the catch logs and **re-throws** a platform rejection. -/
def showLocalNotificationE (p : Platform) (title body dataType : String) :
    Except String (List Event × String) :=
  if p.scheduleNotifFails then
    Except.error "Failed to show local notification"
  else
    Except.ok ([Event.registerTrigger none (immediateContent title body dataType)],
      p.handles 0)

/-- `testNotification()`: delegates to `showLocalNotification`; the catch
logs and **re-throws**. -/
def testNotificationE (p : Platform) : Except String (List Event) :=
  match showLocalNotificationE p "🧪 Test Notification"
      "This is a test notification to verify the service is working correctly."
      "test" with
  | Except.ok res => Except.ok res.1
  | Except.error e => Except.error e

/-- Trace-and-result view of `scheduleReminder` (its catch returns `null`,
so the `Except` layer is always `ok`). -/
def scheduleReminder (p : Platform) (st : Store) (r : MedicationReminder) :
    List Event × Option String :=
  match scheduleReminderE p st r with
  | Except.ok res => res
  | Except.error _ => ([], none)

/-- Trace view of `deleteReminder`. -/
def deleteReminderRun (p : Platform) (st : Store) (reminderId : String) :
    List Event :=
  match deleteReminderE p st reminderId with
  | Except.ok tr => tr
  | Except.error _ => []

/-- Trace view of `handleMedicationTaken`. -/
def handleMedicationTakenRun (p : Platform) (st : Store)
    (medicationId now : String) : List Event :=
  match handleMedicationTakenE p st medicationId now with
  | Except.ok tr => tr
  | Except.error _ => []

/-- Trace view of `handleSnoozeReminder`. -/
def handleSnoozeReminderRun (p : Platform) (st : Store)
    (medicationId reminderTime : String) : List Event :=
  match handleSnoozeReminderE p st medicationId reminderTime with
  | Except.ok tr => tr
  | Except.error _ => []

/-- Trace view of the response listener. -/
def routeResponseRun (p : Platform) (st : Store) (actionIdentifier : String)
    (data : Option NotifData) (now : String) : List Event :=
  match routeResponseE p st actionIdentifier data now with
  | Except.ok tr => tr
  | Except.error _ => []

/-- The persisted reminder collection is duplicate-free in `id`. -/
def nodupIds (l : List MedicationReminder) : Prop :=
  (l.map (fun x => x.id)).Nodup

/-- Is this event an issued trigger registration? -/
def isRegEvt : Event → Bool
  | Event.registerTrigger _ _ => true
  | _ => false

/-- Is this event an issued cancel-by-handle call? -/
def isCancelEvt : Event → Bool
  | Event.cancelTrigger _ => true
  | _ => false

/-- Is this event an issued write of the reminder collection? -/
def isWriteRemEvt : Event → Bool
  | Event.writeReminders _ => true
  | _ => false

/-- Is this event an issued write of the medication collection? -/
def isWriteMedEvt : Event → Bool
  | Event.writeMedications _ => true
  | _ => false

/-- Is this event a registration of a relative-delay (one-shot interval)
trigger? -/
def isIntervalRegEvt : Event → Bool
  | Event.registerTrigger (some (Trigger.timeInterval _ _)) _ => true
  | _ => false

/-- A fully successful platform with a deterministic handle supply. -/
def okPlatform : Platform :=
  { getItemFails := false, setItemFails := false, scheduleNotifFails := false
    cancelNotifFails := false, cancelAllFails := false, permissionsFail := false
    handles := fun n => "nid" ++ toString n }

/-- A platform on which every boundary call rejects. -/
def failPlatform : Platform :=
  { getItemFails := true, setItemFails := true, scheduleNotifFails := true
    cancelNotifFails := true, cancelAllFails := true, permissionsFail := true
    handles := fun n => "nid" ++ toString n }

/-! ### Helper lemmas and concrete fixtures -/

/-- Mapping a function that fixes every member of a list is the identity. -/
theorem map_eq_self_of_mem {α : Type} (f : α → α) :
    ∀ l : List α, (∀ x ∈ l, f x = x) → l.map f = l
  | [], _ => rfl
  | a :: l, h => by
    simp only [List.map_cons]
    rw [h a (List.mem_cons_self a l),
      map_eq_self_of_mem f l (fun x hx => h x (List.mem_cons_of_mem a hx))]

/-- Claim C1: for an Acknowledge (taken) response whose `medicationId`
matches a record of the present medication collection,
`handleMedicationTaken` writes back the collection with that record's
`lastTaken` set to now and its `adherence` raised by the fixed bonus of 2,
clamped by `Math.min` so the result never exceeds 100; every non-matching
record is written back unchanged, and when no record matches the collection
is written back equal, as a value, to what was read. -/
theorem medication_taken_updates_matching_record
    (p : Platform) (st : Store) (meds : List Medication) (medicationId now : String)
    (hget : p.getItemFails = false) (hmeds : st.medications = some meds) :
    (handleMedicationTakenRun p st medicationId now).head?
      = some (Event.writeMedications (meds.map (updateMed medicationId now)))
    ∧ (∀ med : Medication, med.id = medicationId →
        updateMed medicationId now med
          = { med with lastTaken := some now,
                       adherence := min 100 (med.adherence + 2) })
    ∧ (∀ med : Medication, med.id = medicationId →
        (updateMed medicationId now med).adherence ≤ 100)
    ∧ (∀ med : Medication, med.id ≠ medicationId →
        updateMed medicationId now med = med)
    ∧ ((∀ med ∈ meds, med.id ≠ medicationId) →
        meds.map (updateMed medicationId now) = meds) := by
  refine ⟨?_, ?_, ?_, ?_, ?_⟩
  · unfold handleMedicationTakenRun handleMedicationTakenE
    rw [hget, hmeds]
    cases hset : p.setItemFails <;> simp
  · intro med hid
    simp [updateMed, hid]
  · intro med hid
    simp [updateMed, hid]
  · intro med hid
    simp [updateMed, hid]
  · intro hall
    exact map_eq_self_of_mem _ meds fun med hmed => by
      simp [updateMed, hall med hmed]

/-- Witness for C1 at a concrete input: adherence 99 is clamped to 100,
not 101, and `lastTaken` becomes the current time. -/
theorem medication_taken_updates_witness :
    (handleMedicationTakenRun okPlatform
        { medications := some [{ id := "m1", name := "Aspirin", dosage := "100mg",
                                 adherence := 99, lastTaken := none }],
          reminders := none } "m1" "2026-10-11T08:00:00Z").head?
      = some (Event.writeMedications
          [{ id := "m1", name := "Aspirin", dosage := "100mg",
             adherence := 100, lastTaken := some "2026-10-11T08:00:00Z" }]) := by
  rw [(medication_taken_updates_matching_record okPlatform
      { medications := some [{ id := "m1", name := "Aspirin", dosage := "100mg",
                               adherence := 99, lastTaken := none }],
        reminders := none }
      [{ id := "m1", name := "Aspirin", dosage := "100mg",
         adherence := 99, lastTaken := none }]
      "m1" "2026-10-11T08:00:00Z" rfl rfl).1]
  decide

/-- Claim C9: an Acknowledge (taken) response whose `medicationId` matches
no record of a present medication collection still issues a persistence
write of the value-unchanged collection and still sends a
`Dose Recorded` confirmation using the fallback display name
`Medication` — the unknown-id case is not free of side effects. -/
theorem taken_unknown_id_writes_and_notifies
    (p : Platform) (st : Store) (meds : List Medication) (medicationId now : String)
    (hget : p.getItemFails = false) (hset : p.setItemFails = false)
    (hmeds : st.medications = some meds)
    (hno : ∀ med ∈ meds, med.id ≠ medicationId) :
    handleMedicationTakenRun p st medicationId now
      = [Event.writeMedications meds,
         Event.registerTrigger none
           (immediateContent "✅ Dose Recorded" "Medication marked as taken"
             "confirmation")] := by
  have hmap : meds.map (updateMed medicationId now) = meds :=
    map_eq_self_of_mem _ meds fun med hmed => by
      simp [updateMed, hno med hmed]
  have hfind : meds.find? (fun m => m.id == medicationId) = none :=
    List.find?_eq_none.mpr fun med hmed => by
      simp [hno med hmed]
  have hname : takenName meds medicationId = "Medication" := by
    simp [takenName, hfind]
  unfold handleMedicationTakenRun handleMedicationTakenE
  rw [hget, hmeds]
  simp [hset, hmap, hname]

/-- Witness for C9 at a concrete input with one non-matching record. -/
theorem taken_unknown_id_witness :
    handleMedicationTakenRun okPlatform
        { medications := some [{ id := "m1", name := "Aspirin", dosage := "100mg",
                                 adherence := 50, lastTaken := none }],
          reminders := none } "unknown-id" "2026-10-11T08:00:00Z"
      = [Event.writeMedications [{ id := "m1", name := "Aspirin", dosage := "100mg",
                                   adherence := 50, lastTaken := none }],
         Event.registerTrigger none
           (immediateContent "✅ Dose Recorded" "Medication marked as taken"
             "confirmation")] :=
  taken_unknown_id_writes_and_notifies okPlatform
    { medications := some [{ id := "m1", name := "Aspirin", dosage := "100mg",
                             adherence := 50, lastTaken := none }],
      reminders := none }
    [{ id := "m1", name := "Aspirin", dosage := "100mg",
       adherence := 50, lastTaken := none }]
    "unknown-id" "2026-10-11T08:00:00Z" rfl rfl rfl (by decide)

/-- Claim C10: the notification-response listener drops any response whose
payload lacks `reminderTime` (even when `medicationId` is present) and any
response lacking `medicationId`: no handler runs, so no adherence update,
no snooze trigger and no notification is issued. -/
theorem listener_requires_both_fields
    (p : Platform) (st : Store) (actionIdentifier : String) (d : NotifData)
    (now : String) :
    (d.reminderTime = none →
      routeResponseRun p st actionIdentifier (some d) now = [])
    ∧ (d.medicationId = none →
      routeResponseRun p st actionIdentifier (some d) now = []) := by
  constructor
  · intro ht
    unfold routeResponseRun routeResponseE
    cases hm : d.medicationId <;> simp [hm, ht]
  · intro hm
    unfold routeResponseRun routeResponseE
    cases ht : d.reminderTime <;> simp [hm, ht]

/-- Witness for C10: a `taken` response carrying a `medicationId` but no
`reminderTime` produces no events at all. -/
theorem listener_requires_both_fields_witness :
    routeResponseRun okPlatform { medications := none, reminders := none }
        "taken"
        (some { medicationId := some "m1", reminderTime := none,
                dataType := some "medicine_reminder" })
        "2026-10-11T08:00:00Z" = [] :=
  (listener_requires_both_fields okPlatform
    { medications := none, reminders := none } "taken"
    { medicationId := some "m1", reminderTime := none,
      dataType := some "medicine_reminder" }
    "2026-10-11T08:00:00Z").1 rfl

/-- Claim C6: a Defer (snooze) response registers exactly one relative-delay
trigger — one-shot (`repeats = false`), `15 * 60 = 900` seconds — whose
payload carries the same `medicationId` and `reminderTime`, and issues no
persistence write at all, so every stored medication's `adherence` and
`lastTaken` are untouched. -/
theorem snooze_registers_single_interval_trigger
    (p : Platform) (st : Store) (medicationId reminderTime : String)
    (hget : p.getItemFails = false) :
    (handleSnoozeReminderRun p st medicationId reminderTime).filter isIntervalRegEvt
      = [Event.registerTrigger (some (Trigger.timeInterval (15 * 60) false))
          (snoozeContent st.medications medicationId reminderTime)]
    ∧ (snoozeContent st.medications medicationId reminderTime).data.medicationId
        = some medicationId
    ∧ (snoozeContent st.medications medicationId reminderTime).data.reminderTime
        = some reminderTime
    ∧ 15 * 60 = 900
    ∧ (handleSnoozeReminderRun p st medicationId reminderTime).countP isWriteMedEvt = 0
    ∧ (handleSnoozeReminderRun p st medicationId reminderTime).countP isWriteRemEvt = 0 := by
  unfold handleSnoozeReminderRun handleSnoozeReminderE
  rw [hget]
  cases hs : p.scheduleNotifFails <;>
    simp [isIntervalRegEvt, isWriteMedEvt, isWriteRemEvt, snoozeContent,
      List.countP_cons, List.countP_nil]

/-- Witness for C6 at a concrete input (known medication in the store). -/
theorem snooze_registers_single_interval_witness :
    (handleSnoozeReminderRun okPlatform
        { medications := some [{ id := "m1", name := "Aspirin", dosage := "100mg",
                                 adherence := 50, lastTaken := none }],
          reminders := none } "m1" "09:00").filter isIntervalRegEvt
      = [Event.registerTrigger (some (Trigger.timeInterval 900 false))
          (snoozeContent
            (some [{ id := "m1", name := "Aspirin", dosage := "100mg",
                     adherence := 50, lastTaken := none }]) "m1" "09:00")] := by
  rw [(snooze_registers_single_interval_trigger okPlatform
      { medications := some [{ id := "m1", name := "Aspirin", dosage := "100mg",
                               adherence := 50, lastTaken := none }],
        reminders := none } "m1" "09:00" rfl).1]

/-- The initial cancellation step of `scheduleReminder` never issues a
trigger-registration call. -/
theorem countP_isReg_cancelEvents (r : MedicationReminder) :
    (cancelEvents r).countP isRegEvt = 0 := by
  unfold cancelEvents
  cases r.notificationId with
  | none => rfl
  | some a =>
    by_cases ha : a = "" <;> simp [ha, isRegEvt]

/-- Claim C3: an enabled reminder with an empty `days` set yields a `null`
result and no trigger-registration call (the loop body never runs). -/
theorem schedule_empty_days_returns_none_no_register
    (p : Platform) (st : Store) (r : MedicationReminder)
    (hen : r.enabled = true) (hdays : r.days = []) :
    (scheduleReminder p st r).2 = none
    ∧ (scheduleReminder p st r).1.countP isRegEvt = 0 := by
  unfold scheduleReminder scheduleReminderE
  rw [hen, hdays]
  simp [saveReminderEvents, List.countP_append, countP_isReg_cancelEvents,
    isRegEvt]

/-- Witness for C3: a concrete enabled reminder with `days = []`. -/
theorem schedule_empty_days_witness :
    (scheduleReminder okPlatform { medications := none, reminders := none }
        { id := "r1", medicationId := "m1", medicationName := "Aspirin",
          dosage := "100mg", scheduledTime := "09:00", days := [],
          enabled := true, notificationId := none }).2 = none :=
  (schedule_empty_days_returns_none_no_register okPlatform
    { medications := none, reminders := none }
    { id := "r1", medicationId := "m1", medicationName := "Aspirin",
      dosage := "100mg", scheduledTime := "09:00", days := [],
      enabled := true, notificationId := none } rfl rfl).1

/-- A well-formed `HH:MM` string parses to its two numeric components. -/
theorem parseTime_eq (s : String) (hcs mcs : List Char) (h m : Nat)
    (hsplit : splitOnColon s.data = [hcs, mcs])
    (hh : jsNumber? hcs = some h) (hm : jsNumber? mcs = some m) :
    parseTime s = (h, m) := by
  unfold parseTime
  rw [hsplit]
  simp [hh, hm]

/-- The initial cancellation step issues no registration event. -/
theorem filter_isReg_cancelEvents (r : MedicationReminder) :
    (cancelEvents r).filter isRegEvt = [] := by
  unfold cancelEvents
  cases r.notificationId with
  | none => rfl
  | some a =>
    by_cases ha : a = "" <;> simp [ha, isRegEvt]

/-- The `saveReminder` step issues no registration event. -/
theorem filter_isReg_saveEvents (p : Platform) (st : Store)
    (r : MedicationReminder) :
    (saveReminderEvents p st r).filter isRegEvt = [] := by
  simp [saveReminderEvents, isRegEvt]

/-- Closed form of `scheduleReminder` on the fully successful platform path
for an enabled reminder: cancel step, one registration per day, save step. -/
theorem scheduleReminder_success (p : Platform) (st : Store)
    (r : MedicationReminder)
    (hen : r.enabled = true) (hplat : p.scheduleNotifFails = false) :
    scheduleReminder p st r
      = (cancelEvents r
          ++ r.days.map (fun d =>
              Event.registerTrigger (some (weeklyTrig r d)) (reminderContent r))
          ++ saveReminderEvents p st
              { r with notificationId :=
                  ((List.range r.days.length).map p.handles).head? },
         ((List.range r.days.length).map p.handles).head?) := by
  unfold scheduleReminder scheduleReminderE
  rw [hen, hplat]
  simp

/-- Claim C2: for an enabled reminder with a well-formed `HH:MM` time and
`k` distinct weekday indices in `0..6`, `scheduleReminder` issues exactly
`k` weekly registrations (one per entry of `days`, in order), each carrying
the parsed hour and minute, `repeats = true`, and the registrar weekday
`d === 0 ? 1 : d + 1`; that conditional equals `d + 1` on every weekday
value, so the registrar weekdays are pairwise distinct and lie in `1..7`. -/
theorem schedule_expands_days_to_weekly_triggers
    (p : Platform) (st : Store) (r : MedicationReminder)
    (hcs mcs : List Char) (h m : Nat)
    (hen : r.enabled = true) (hplat : p.scheduleNotifFails = false)
    (hsplit : splitOnColon r.scheduledTime.data = [hcs, mcs])
    (hh : jsNumber? hcs = some h) (hm : jsNumber? mcs = some m)
    (hhb : h ≤ 23) (hmb : m ≤ 59)
    (hnd : r.days.Nodup) (hbd : ∀ d ∈ r.days, d ≤ 6) :
    (scheduleReminder p st r).1.filter isRegEvt
      = r.days.map (fun d =>
          Event.registerTrigger
            (some (Trigger.weekly (if d = 0 then 1 else d + 1) h m true))
            (reminderContent r))
    ∧ ((scheduleReminder p st r).1.filter isRegEvt).length = r.days.length
    ∧ (∀ d : Nat, d ≤ 6 → (if d = 0 then 1 else d + 1) = d + 1)
    ∧ (r.days.map (fun d => if d = 0 then 1 else d + 1)).Nodup
    ∧ (∀ w ∈ r.days.map (fun d => if d = 0 then 1 else d + 1),
        1 ≤ w ∧ w ≤ 7) := by
  have hpt : parseTime r.scheduledTime = (h, m) :=
    parseTime_eq r.scheduledTime hcs mcs h m hsplit hh hm
  have hcond : (fun d : Nat => if d = 0 then 1 else d + 1)
      = fun d : Nat => d + 1 :=
    funext fun d => by by_cases hd : d = 0 <;> simp [hd]
  have hregs : (r.days.map (fun d =>
      Event.registerTrigger (some (weeklyTrig r d)) (reminderContent r))).filter
        isRegEvt
      = r.days.map (fun d =>
          Event.registerTrigger (some (weeklyTrig r d)) (reminderContent r)) :=
    List.filter_eq_self.mpr (by
      intro e he
      simp only [List.mem_map] at he
      obtain ⟨d, _, rfl⟩ := he
      rfl)
  have hmain : (scheduleReminder p st r).1.filter isRegEvt
      = r.days.map (fun d =>
          Event.registerTrigger
            (some (Trigger.weekly (if d = 0 then 1 else d + 1) h m true))
            (reminderContent r)) := by
    rw [scheduleReminder_success p st r hen hplat]
    rw [List.filter_append, List.filter_append, filter_isReg_cancelEvents,
      filter_isReg_saveEvents, hregs]
    simp [weeklyTrig, hpt]
  refine ⟨hmain, ?_, ?_, ?_, ?_⟩
  · rw [hmain, List.length_map]
  · intro d _
    by_cases hd : d = 0 <;> simp [hd]
  · rw [hcond]
    exact hnd.map fun a b hab => Nat.add_right_cancel hab
  · intro w hw
    simp only [List.mem_map] at hw
    obtain ⟨d, hd, rfl⟩ := hw
    have := hbd d hd
    by_cases hd0 : d = 0 <;> simp [hd0] <;> omega

/-- Witness for C2 at the spec's end-to-end example:
`{time: "09:00", days: [1, 3, 5]}` yields three weekly registrations on
registrar weekdays 2, 4, 6 at 09:00, all repeating. -/
theorem schedule_expands_days_witness :
    (scheduleReminder okPlatform { medications := none, reminders := none }
        { id := "r1", medicationId := "m1", medicationName := "Aspirin",
          dosage := "100mg", scheduledTime := "09:00", days := [1, 3, 5],
          enabled := true, notificationId := none }).1.filter isRegEvt
      = [1, 3, 5].map (fun d =>
          Event.registerTrigger
            (some (Trigger.weekly (if d = 0 then 1 else d + 1) 9 0 true))
            (reminderContent
              { id := "r1", medicationId := "m1", medicationName := "Aspirin",
                dosage := "100mg", scheduledTime := "09:00", days := [1, 3, 5],
                enabled := true, notificationId := none })) :=
  (schedule_expands_days_to_weekly_triggers okPlatform
    { medications := none, reminders := none }
    { id := "r1", medicationId := "m1", medicationName := "Aspirin",
      dosage := "100mg", scheduledTime := "09:00", days := [1, 3, 5],
      enabled := true, notificationId := none }
    ['0', '9'] ['0', '0'] 9 0 rfl rfl (by decide) (by decide) (by decide)
    (by decide) (by decide) (by decide) (by decide)).1

/-- Closed form of `scheduleReminder` for an enabled reminder with an empty
`days` list (the registration loop never runs, so the platform cannot
reject; the saved handle is `undefined`). -/
theorem scheduleReminder_days_nil (p : Platform) (st : Store)
    (r : MedicationReminder) (hen : r.enabled = true) (hd : r.days = []) :
    scheduleReminder p st r
      = (cancelEvents r
          ++ saveReminderEvents p st { r with notificationId := none }, none) := by
  unfold scheduleReminder scheduleReminderE
  rw [hen, hd]
  simp

/-- Closed form of `scheduleReminder` for an enabled reminder when the
platform rejects registrations: the first issued registration throws and
the catch returns `null` — only the cancel step and that one registration
were issued. -/
theorem scheduleReminder_platform_fail (p : Platform) (st : Store)
    (r : MedicationReminder) (d : Nat) (tl : List Nat)
    (hen : r.enabled = true) (hplat : p.scheduleNotifFails = true)
    (hd : r.days = d :: tl) :
    scheduleReminder p st r
      = (cancelEvents r
          ++ [Event.registerTrigger (some (weeklyTrig r d)) (reminderContent r)],
         none) := by
  unfold scheduleReminder scheduleReminderE
  rw [hen, hplat, hd]
  simp

/-- A trace headed by one cancel event whose tail is cancel-free has exactly
one cancel, at position 0, so it precedes every registration event. -/
theorem trace_cancel_head (h : String) (rest : List Event)
    (hrest : rest.countP isCancelEvt = 0) :
    (Event.cancelTrigger h :: rest).countP isCancelEvt = 1
    ∧ (Event.cancelTrigger h :: rest).head? = some (Event.cancelTrigger h)
    ∧ (∀ i e, (Event.cancelTrigger h :: rest).get? i = some e →
        isRegEvt e = true → 0 < i) := by
  refine ⟨?_, rfl, ?_⟩
  · simp [List.countP_cons, isCancelEvt, hrest]
  · intro i e hg hr
    cases i with
    | zero =>
      simp only [List.get?] at hg
      cases hg
      simp [isRegEvt] at hr
    | succ n => exact Nat.succ_pos n

/-- The per-day registrations contain no cancel event. -/
theorem countP_isCancel_regs (r : MedicationReminder) (l : List Nat) :
    (l.map (fun d =>
      Event.registerTrigger (some (weeklyTrig r d)) (reminderContent r))).countP
        isCancelEvt = 0 :=
  List.countP_eq_zero.mpr (by
    intro e he
    simp only [List.mem_map] at he
    obtain ⟨d, _, rfl⟩ := he
    simp [isCancelEvt])

/-- The `saveReminder` step contains no cancel event. -/
theorem countP_isCancel_save (p : Platform) (st : Store)
    (r : MedicationReminder) :
    (saveReminderEvents p st r).countP isCancelEvt = 0 := by
  simp [saveReminderEvents, isCancelEvt]

/-- Counterexample to claim C5 as stated: a stored handle that is the empty
string is "set", but the JavaScript truthiness guard
`if (reminder.notificationId)` skips the cancellation, so re-scheduling
this enabled reminder issues zero cancel calls, not exactly one. -/
theorem schedule_empty_handle_no_cancel_cex :
    ((scheduleReminder okPlatform { medications := none, reminders := none }
        { id := "r1", medicationId := "m1", medicationName := "Aspirin",
          dosage := "100mg", scheduledTime := "09:00", days := [1],
          enabled := true, notificationId := some "" }).1.countP
        isCancelEvt = 0)
    ∧ ({ id := "r1", medicationId := "m1", medicationName := "Aspirin",
         dosage := "100mg", scheduledTime := "09:00", days := [1],
         enabled := true,
         notificationId := some "" : MedicationReminder }.enabled = true) := by
  constructor
  · rfl
  · rfl

/-- Claim C5 (amended: the stored handle must be non-empty, since an empty
string fails the JavaScript truthiness guard): re-scheduling an enabled
reminder whose `notificationId` is a non-empty handle issues exactly one
cancel call, for exactly that handle, placed at the head of the trace and
therefore before every registration issued by the same invocation — on
every platform behaviour, including rejected registrations. -/
theorem schedule_cancels_before_register_amended
    (p : Platform) (st : Store) (r : MedicationReminder) (h : String)
    (hen : r.enabled = true) (hnid : r.notificationId = some h)
    (hne : h ≠ "") :
    (scheduleReminder p st r).1.countP isCancelEvt = 1
    ∧ (scheduleReminder p st r).1.head? = some (Event.cancelTrigger h)
    ∧ (∀ i e, (scheduleReminder p st r).1.get? i = some e →
        isRegEvt e = true → 0 < i) := by
  have hc : cancelEvents r = [Event.cancelTrigger h] := by
    simp [cancelEvents, hnid, hne]
  cases hplat : p.scheduleNotifFails with
  | false =>
    rw [scheduleReminder_success p st r hen hplat, hc]
    rw [List.append_assoc, List.singleton_append]
    exact trace_cancel_head h _ (by
      rw [List.countP_append, countP_isCancel_regs, countP_isCancel_save])
  | true =>
    cases hd : r.days with
    | nil =>
      rw [scheduleReminder_days_nil p st r hen hd, hc, List.singleton_append]
      exact trace_cancel_head h _ (countP_isCancel_save p st _)
    | cons d tl =>
      rw [scheduleReminder_platform_fail p st r d tl hen hplat hd, hc,
        List.singleton_append]
      exact trace_cancel_head h _ (by simp [isCancelEvt])

/-- Witness for the amended C5 at a concrete reminder with the previously
assigned non-empty handle `"nid-old"`. -/
theorem schedule_cancels_before_register_witness :
    (scheduleReminder okPlatform { medications := none, reminders := none }
        { id := "r1", medicationId := "m1", medicationName := "Aspirin",
          dosage := "100mg", scheduledTime := "09:00", days := [1, 3],
          enabled := true, notificationId := some "nid-old" }).1.countP
        isCancelEvt = 1 :=
  (schedule_cancels_before_register_amended okPlatform
    { medications := none, reminders := none }
    { id := "r1", medicationId := "m1", medicationName := "Aspirin",
      dosage := "100mg", scheduledTime := "09:00", days := [1, 3],
      enabled := true, notificationId := some "nid-old" }
    "nid-old" rfl rfl (by decide)).1

/-- Counterexample to claim C4 as stated, in both directions it fails:
(a) deleting an id that is absent from the stored collection still issues
one persistence write (the value-unchanged collection is written back), not
zero; (b) a stored reminder whose `notificationId` is the empty string
"carries" a handle, yet the truthiness guard `if (reminder?.notificationId)`
skips the cancel, so zero cancel calls are issued instead of exactly one. -/
theorem delete_unknown_id_still_writes_cex :
    ((deleteReminderRun okPlatform
        { medications := none, reminders := some [] } "x").countP
        isWriteRemEvt = 1)
    ∧ ((deleteReminderRun okPlatform
        { medications := none,
          reminders := some [{ id := "r1", medicationId := "m1",
                               medicationName := "Aspirin", dosage := "100mg",
                               scheduledTime := "09:00", days := [1],
                               enabled := true,
                               notificationId := some "" }] } "r1").countP
        isCancelEvt = 0) :=
  ⟨rfl, rfl⟩

/-- Claim C4 (amended): deleting an id whose stored reminder carries a
*non-empty* `notificationId` issues exactly one cancel call, for that
handle, and one persistence write of the collection with every entry of
that id removed and every other entry retained; deleting an id not present
in the collection issues zero registrar calls but still *one* persistence
write, whose value equals the collection that was read (a value-level
no-op, not a call-level one). -/
theorem delete_cancels_and_removes_amended
    (p : Platform) (st : Store) (l : List MedicationReminder) (rid : String)
    (hget : p.getItemFails = false) (hl : st.reminders = some l) :
    (∀ rem h, l.find? (fun x => x.id == rid) = some rem →
       rem.notificationId = some h → h ≠ "" →
       (deleteReminderRun p st rid).countP isCancelEvt = 1
       ∧ Event.cancelTrigger h ∈ deleteReminderRun p st rid
       ∧ (deleteReminderRun p st rid).countP isWriteRemEvt = 1
       ∧ Event.writeReminders (l.filter (fun x => x.id != rid))
           ∈ deleteReminderRun p st rid
       ∧ rem ∉ l.filter (fun x => x.id != rid)
       ∧ (∀ x ∈ l, x.id ≠ rid → x ∈ l.filter (fun x => x.id != rid)))
    ∧ ((∀ x ∈ l, x.id ≠ rid) →
       (deleteReminderRun p st rid).countP isCancelEvt = 0
       ∧ deleteReminderRun p st rid = [Event.writeReminders l]) := by
  constructor
  · intro rem h hfind hnid hne
    have htr : deleteReminderRun p st rid
        = [Event.cancelTrigger h,
           Event.writeReminders (l.filter (fun x => x.id != rid))] := by
      simp [deleteReminderRun, deleteReminderE, deleteCancelEvents,
        getRemindersRun, hget, hl, hfind, hnid, hne]
    have hid : rem.id = rid := by simpa using List.find?_some hfind
    refine ⟨?_, ?_, ?_, ?_, ?_, ?_⟩
    · simp [htr, List.countP_cons, isCancelEvt]
    · simp [htr]
    · simp [htr, List.countP_cons, isWriteRemEvt]
    · simp [htr]
    · intro hmem
      have hx := (List.mem_filter.mp hmem).2
      simp [hid] at hx
    · intro x hx hxid
      exact List.mem_filter.mpr ⟨hx, by simp [hxid]⟩
  · intro hall
    have hfind : l.find? (fun x => x.id == rid) = none :=
      List.find?_eq_none.mpr fun x hx => by simp [hall x hx]
    have hfilter : l.filter (fun x => x.id != rid) = l :=
      List.filter_eq_self.mpr fun x hx => by simp [hall x hx]
    have htr : deleteReminderRun p st rid = [Event.writeReminders l] := by
      simp [deleteReminderRun, deleteReminderE, deleteCancelEvents,
        getRemindersRun, hget, hl, hfind, hfilter]
    exact ⟨by simp [htr, List.countP_cons, isCancelEvt], htr⟩

/-- Witness for the amended C4: deleting a stored reminder that carries the
non-empty handle `"nid1"` issues exactly one cancel call. -/
theorem delete_cancels_and_removes_witness :
    (deleteReminderRun okPlatform
        { medications := none,
          reminders := some [{ id := "r1", medicationId := "m1",
                               medicationName := "Aspirin", dosage := "100mg",
                               scheduledTime := "09:00", days := [1],
                               enabled := true,
                               notificationId := some "nid1" }] } "r1").countP
        isCancelEvt = 1 :=
  ((delete_cancels_and_removes_amended okPlatform
    { medications := none,
      reminders := some [{ id := "r1", medicationId := "m1",
                           medicationName := "Aspirin", dosage := "100mg",
                           scheduledTime := "09:00", days := [1],
                           enabled := true,
                           notificationId := some "nid1" }] }
    [{ id := "r1", medicationId := "m1", medicationName := "Aspirin",
       dosage := "100mg", scheduledTime := "09:00", days := [1],
       enabled := true, notificationId := some "nid1" }]
    "r1" rfl rfl).1
    { id := "r1", medicationId := "m1", medicationName := "Aspirin",
      dosage := "100mg", scheduledTime := "09:00", days := [1],
      enabled := true, notificationId := some "nid1" }
    "nid1" rfl rfl (by decide)).1

/-- `saveReminder`'s written collection stays duplicate-free in `id`: every
entry with the incoming id is dropped before the new entry is appended. -/
theorem nodupIds_save (ex : List MedicationReminder) (r : MedicationReminder)
    (hex : nodupIds ex) :
    nodupIds (ex.filter (fun x => x.id != r.id) ++ [r]) := by
  unfold nodupIds at hex ⊢
  rw [List.map_append, List.nodup_append]
  refine ⟨((ex.filter_sublist).map _).nodup hex, by simp, ?_⟩
  intro a ha hb
  simp only [List.map_cons, List.map_nil, List.mem_singleton] at hb
  simp only [List.mem_map, List.mem_filter] at ha
  obtain ⟨x, ⟨_, hxid⟩, rfl⟩ := ha
  simp [hb] at hxid

/-- The collection read back by either mutating operation is duplicate-free
whenever the stored collection is (a missing key or failed read gives `[]`). -/
theorem nodupIds_getReminders (p : Platform) (st : Store)
    (hst : ∀ l, st.reminders = some l → nodupIds l) :
    nodupIds (getRemindersRun p st) := by
  unfold getRemindersRun
  cases hg : p.getItemFails with
  | true => simp [nodupIds]
  | false =>
    cases hr : st.reminders with
    | none => simp [nodupIds]
    | some l => simpa using hst l hr

/-- The cancel step of `scheduleReminder` contains no reminder write. -/
theorem write_not_mem_cancelEvents (r : MedicationReminder)
    (l' : List MedicationReminder) :
    Event.writeReminders l' ∉ cancelEvents r := by
  unfold cancelEvents
  cases r.notificationId with
  | none => simp
  | some a => by_cases ha : a = "" <;> simp [ha]

/-- The registration steps of `scheduleReminder` contain no reminder write. -/
theorem write_not_mem_regs (r : MedicationReminder) (l : List Nat)
    (l' : List MedicationReminder) :
    Event.writeReminders l'
      ∉ l.map (fun d =>
          Event.registerTrigger (some (weeklyTrig r d)) (reminderContent r)) := by
  intro h
  simp only [List.mem_map] at h
  obtain ⟨d, _, hd⟩ := h
  cases hd

/-- The only reminder write of the save step is the filtered-plus-appended
collection. -/
theorem write_mem_saveEvents (p : Platform) (st : Store)
    (r' : MedicationReminder) (l' : List MedicationReminder)
    (h : Event.writeReminders l' ∈ saveReminderEvents p st r') :
    l' = (getRemindersRun p st).filter (fun x => x.id != r'.id) ++ [r'] := by
  simpa [saveReminderEvents] using h

/-- The cancel step of `deleteReminder` contains no reminder write. -/
theorem write_not_mem_deleteCancel (l : List MedicationReminder) (rid : String)
    (l' : List MedicationReminder) :
    Event.writeReminders l' ∉ deleteCancelEvents l rid := by
  unfold deleteCancelEvents
  cases l.find? (fun x => x.id == rid) with
  | none => simp
  | some rem =>
    cases hn : rem.notificationId with
    | none => simp [hn]
    | some a => by_cases ha : a = "" <;> simp [hn, ha]

/-- Claim C7: starting from a stored reminder collection that is
duplicate-free in `id`, every collection written back by `scheduleReminder`
(through `saveReminder`) and by `deleteReminder` is still duplicate-free in
`id`. -/
theorem reminder_ids_nodup_preserved
    (p : Platform) (st : Store) (r : MedicationReminder) (rid : String)
    (hst : ∀ l, st.reminders = some l → nodupIds l) :
    (∀ l', Event.writeReminders l' ∈ (scheduleReminder p st r).1 → nodupIds l')
    ∧ (∀ l', Event.writeReminders l' ∈ deleteReminderRun p st rid →
        nodupIds l') := by
  have hex : nodupIds (getRemindersRun p st) := nodupIds_getReminders p st hst
  constructor
  · intro l' hl'
    cases hen : r.enabled with
    | false =>
      have hz : scheduleReminder p st r = ([], none) := by
        unfold scheduleReminder scheduleReminderE
        rw [hen]
        simp
      rw [hz] at hl'
      simp at hl'
    | true =>
      cases hplat : p.scheduleNotifFails with
      | false =>
        rw [scheduleReminder_success p st r hen hplat] at hl'
        rcases List.mem_append.mp hl' with hl2 | hsave
        · rcases List.mem_append.mp hl2 with hc | hr2
          · exact absurd hc (write_not_mem_cancelEvents r l')
          · exact absurd hr2 (write_not_mem_regs r r.days l')
        · rw [write_mem_saveEvents p st _ l' hsave]
          exact nodupIds_save _ _ hex
      | true =>
        cases hd : r.days with
        | nil =>
          rw [scheduleReminder_days_nil p st r hen hd] at hl'
          rcases List.mem_append.mp hl' with hc | hsave
          · exact absurd hc (write_not_mem_cancelEvents r l')
          · rw [write_mem_saveEvents p st _ l' hsave]
            exact nodupIds_save _ _ hex
        | cons d tl =>
          rw [scheduleReminder_platform_fail p st r d tl hen hplat hd] at hl'
          rcases List.mem_append.mp hl' with hc | hr2
          · exact absurd hc (write_not_mem_cancelEvents r l')
          · simp at hr2
  · intro l' hl'
    have htr : deleteReminderRun p st rid
        = deleteCancelEvents (getRemindersRun p st) rid
          ++ [Event.writeReminders
              ((getRemindersRun p st).filter (fun x => x.id != rid))] := by
      simp [deleteReminderRun, deleteReminderE]
    rw [htr] at hl'
    rcases List.mem_append.mp hl' with hc | hw
    · exact absurd hc (write_not_mem_deleteCancel _ rid l')
    · have : l' = (getRemindersRun p st).filter (fun x => x.id != rid) := by
        simpa using hw
      rw [this]
      exact (((getRemindersRun p st).filter_sublist).map _).nodup hex

/-- Witness for C7: deleting an unknown id from a singleton collection
writes back a collection that is still duplicate-free in `id`. -/
theorem reminder_ids_nodup_witness :
    nodupIds [{ id := "r1", medicationId := "m1", medicationName := "Aspirin",
                dosage := "100mg", scheduledTime := "09:00", days := [1],
                enabled := true, notificationId := none }] :=
  (reminder_ids_nodup_preserved okPlatform
    { medications := none,
      reminders := some [{ id := "r1", medicationId := "m1",
                           medicationName := "Aspirin", dosage := "100mg",
                           scheduledTime := "09:00", days := [1],
                           enabled := true, notificationId := none }] }
    { id := "r1", medicationId := "m1", medicationName := "Aspirin",
      dosage := "100mg", scheduledTime := "09:00", days := [1],
      enabled := true, notificationId := none }
    "zz"
    (fun l hl => by
      cases hl
      unfold nodupIds
      decide)).2
    [{ id := "r1", medicationId := "m1", medicationName := "Aspirin",
       dosage := "100mg", scheduledTime := "09:00", days := [1],
       enabled := true, notificationId := none }]
    (by decide)

/-- The Acknowledge handler catches every internal failure and never
re-throws. -/
theorem handleMedicationTakenE_isOk (p : Platform) (st : Store)
    (medicationId now : String) :
    (handleMedicationTakenE p st medicationId now).isOk = true := by
  unfold handleMedicationTakenE
  cases hg : p.getItemFails with
  | true => simp [Except.isOk, Except.toBool]
  | false =>
    cases hm : st.medications with
    | none => simp [Except.isOk, Except.toBool]
    | some meds =>
      cases hs : p.setItemFails <;> simp [Except.isOk, Except.toBool]

/-- The Defer handler catches every internal failure and never re-throws. -/
theorem handleSnoozeReminderE_isOk (p : Platform) (st : Store)
    (medicationId reminderTime : String) :
    (handleSnoozeReminderE p st medicationId reminderTime).isOk = true := by
  unfold handleSnoozeReminderE
  cases hg : p.getItemFails with
  | true => simp [Except.isOk, Except.toBool]
  | false =>
    cases hs : p.scheduleNotifFails <;> simp [Except.isOk, Except.toBool]

/-- Counterexample to claim C8 as stated: `initialize`,
`showLocalNotification` and `testNotification` do *not* reduce platform
failures to a fallback value — each one logs and re-throws, so with the
permission request rejecting and the scheduler rejecting, all three
complete exceptionally. -/
theorem error_rethrow_ops_cex :
    ((initServiceE failPlatform false).isOk = false)
    ∧ ((showLocalNotificationE failPlatform "title" "body" "test").isOk = false)
    ∧ ((testNotificationE failPlatform).isOk = false) :=
  ⟨rfl, rfl, rfl⟩

/-- Claim C8 (amended): the never-throw guarantee holds for
`scheduleReminder`, `cancelReminder`, `cancelAllReminders`,
`deleteReminder`, `getReminders` and the notification-response listener —
each completes with its fallback on every platform behaviour — but *not*
for `initialize`, `showLocalNotification` and `testNotification`, whose
catch blocks log and re-throw: they complete exceptionally exactly when
the underlying platform call rejects (for `initialize`, on a first
initialization with a failing permission request). -/
theorem error_swallowing_amended (p : Platform) (st : Store)
    (r : MedicationReminder) (nid rid aid title body dt now : String)
    (d : Option NotifData) (b : Bool) :
    (scheduleReminderE p st r).isOk = true
    ∧ (cancelReminderE p nid).isOk = true
    ∧ (cancelAllRemindersE p).isOk = true
    ∧ (deleteReminderE p st rid).isOk = true
    ∧ (getRemindersE p st).isOk = true
    ∧ (routeResponseE p st aid d now).isOk = true
    ∧ (initServiceE p b).isOk = (b || !p.permissionsFail)
    ∧ (showLocalNotificationE p title body dt).isOk = !p.scheduleNotifFails
    ∧ (testNotificationE p).isOk = !p.scheduleNotifFails := by
  refine ⟨?_, rfl, rfl, rfl, ?_, ?_, ?_, ?_, ?_⟩
  · unfold scheduleReminderE
    by_cases hen : r.enabled = false
    · simp [hen, Except.isOk, Except.toBool]
    · by_cases hc : p.scheduleNotifFails = true ∧ r.days ≠ []
      · simp only [hen, if_false, hc, if_true]
        cases r.days <;> simp [Except.isOk, Except.toBool]
      · simp [hen, hc, Except.isOk, Except.toBool]
  · unfold getRemindersE
    cases hg : p.getItemFails <;> simp [Except.isOk, Except.toBool]
  · unfold routeResponseE
    cases d with
    | none => simp [Except.isOk, Except.toBool]
    | some dd =>
      cases hm : dd.medicationId with
      | none => simp [hm, Except.isOk, Except.toBool]
      | some m =>
        cases ht : dd.reminderTime with
        | none => simp [hm, ht, Except.isOk, Except.toBool]
        | some t =>
          by_cases hft : m = "" ∨ t = ""
          · simp [hm, ht, hft, Except.isOk, Except.toBool]
          · simp only [hm, ht, hft, if_false]
            split
            · simpa [Except.isOk, Except.toBool] using
                handleMedicationTakenE_isOk p st m now
            · simpa [Except.isOk, Except.toBool] using
                handleSnoozeReminderE_isOk p st m t
            · rfl
  · unfold initServiceE
    cases b <;> cases hp : p.permissionsFail <;> simp [Except.isOk, Except.toBool]
  · unfold showLocalNotificationE
    cases hs : p.scheduleNotifFails <;> simp [Except.isOk, Except.toBool]
  · unfold testNotificationE showLocalNotificationE
    cases hs : p.scheduleNotifFails <;> simp [Except.isOk, Except.toBool]
